import Mathlib

/-!
Verification of the `optionalyzer` option-pricing library.

The Python source is embedded shallowly:
* `scipy.stats.norm.cdf` (written `Φ` below) is an external collaborator;
  the pricing functions take it as an explicit function argument.
  `scipy.stats.norm.pdf` is the standard normal density, defined exactly.
* `scipy.optimize.minimize` is an external solver; its result (the point
  `x` reached and the `success` flag) is passed to `implied_volatility`
  as an oracle argument, mirroring the code after the `minimize` call.
* Machine floats are idealised as real numbers; dates are day numbers
  (integers) with `(a - b).days` becoming integer subtraction; the exact
  `1e-10` stabiliser of the source is kept as `1 / 10 ^ 10`.
-/

namespace Optionalyzer

/-- The `1e-10` additive stabiliser appearing in the source's denominators. -/
noncomputable def eps : ℝ := 1 / 10 ^ 10

/-- `scipy.stats.norm.pdf`: the standard normal density. -/
noncomputable def normPdf (x : ℝ) : ℝ :=
  Real.exp (-(x ^ 2) / 2) / Real.sqrt (2 * Real.pi)

/-- The greeks dictionary produced by `BlackScholes.call` / `BlackScholes.put`
with `greeks=True`. -/
structure Greeks where
  delta : ℝ
  gamma : ℝ
  theta : ℝ
  vega : ℝ
  rho : ℝ

namespace BlackScholes

/-- `BlackScholes.__d1`:
`multiplier = 1 / (iv * sqrt(tau) + 1e-10)`;
`term1 = log(S / K)`; `term2 = (r + iv**2 / 2) * tau`;
returns `multiplier * (term1 + term2)`. -/
noncomputable def d1 (S K r iv tau : ℝ) : ℝ :=
  let multiplier := 1 / (iv * Real.sqrt tau + eps)
  let term1 := Real.log (S / K)
  let term2 := (r + iv ^ 2 / 2) * tau
  multiplier * (term1 + term2)

/-- `BlackScholes.__d2`: `d1 - iv * sqrt(tau)`. -/
noncomputable def d2 (S K r iv tau : ℝ) : ℝ :=
  d1 S K r iv tau - iv * Real.sqrt tau

/-- `BlackScholes.__vega`: `S * sqrt(tau) * norm.pdf(d1)`; shared by call
and put greeks. -/
noncomputable def vega (S K r iv tau : ℝ) : ℝ :=
  S * Real.sqrt tau * normPdf (d1 S K r iv tau)

/-- `BlackScholes.__call_delta`: `norm.cdf(d1)`. -/
noncomputable def call_delta (Φ : ℝ → ℝ) (S K r iv tau : ℝ) : ℝ :=
  Φ (d1 S K r iv tau)

/-- `BlackScholes.__put_delta`: `norm.cdf(d1) - 1`. -/
noncomputable def put_delta (Φ : ℝ → ℝ) (S K r iv tau : ℝ) : ℝ :=
  Φ (d1 S K r iv tau) - 1

/-- `BlackScholes.__call_theta`. -/
noncomputable def call_theta (Φ : ℝ → ℝ) (S K r iv tau : ℝ) : ℝ :=
  -S * iv * normPdf (d1 S K r iv tau) / (2 * Real.sqrt tau + eps)
    - r * K * Real.exp (-r * tau) * Φ (d2 S K r iv tau)

/-- `BlackScholes.__put_theta`. -/
noncomputable def put_theta (Φ : ℝ → ℝ) (S K r iv tau : ℝ) : ℝ :=
  -S * iv * normPdf (d1 S K r iv tau) / (2 * Real.sqrt tau + eps)
    + r * K * Real.exp (-r * tau) * Φ (-(d2 S K r iv tau))

/-- `BlackScholes.__call_gamma`: `norm.pdf(d1) / (S * iv * sqrt(tau) + 1e-10)`. -/
noncomputable def call_gamma (S K r iv tau : ℝ) : ℝ :=
  normPdf (d1 S K r iv tau) / (S * iv * Real.sqrt tau + eps)

/-- `BlackScholes.__put_gamma`: `norm.pdf(d1) / (S * iv * sqrt(tau) + 1e-10)`. -/
noncomputable def put_gamma (S K r iv tau : ℝ) : ℝ :=
  normPdf (d1 S K r iv tau) / (S * iv * Real.sqrt tau + eps)

/-- `BlackScholes.__call_rho`. -/
noncomputable def call_rho (Φ : ℝ → ℝ) (S K r iv tau : ℝ) : ℝ :=
  K * tau * Real.exp (-r * tau) * Φ (d2 S K r iv tau)

/-- `BlackScholes.__put_rho`. -/
noncomputable def put_rho (Φ : ℝ → ℝ) (S K r iv tau : ℝ) : ℝ :=
  -K * tau * Real.exp (-r * tau) * Φ (-(d2 S K r iv tau))

/-- `BlackScholes.call` (price part):
`S * norm.cdf(d1) - K * exp(-r * tau) * norm.cdf(d2)`. -/
noncomputable def call (Φ : ℝ → ℝ) (S K r iv tau : ℝ) : ℝ :=
  let term_1 := S * Φ (d1 S K r iv tau)
  let term_2 := K * Real.exp (-r * tau) * Φ (d2 S K r iv tau)
  term_1 - term_2

/-- `BlackScholes.put` (price part):
`K * exp(-r * tau) * norm.cdf(-d2) - S * norm.cdf(-d1)`. -/
noncomputable def put (Φ : ℝ → ℝ) (S K r iv tau : ℝ) : ℝ :=
  let term_1 := K * Real.exp (-r * tau) * Φ (-(d2 S K r iv tau))
  let term_2 := S * Φ (-(d1 S K r iv tau))
  term_1 - term_2

/-- The greeks dictionary built by `BlackScholes.call` when `greeks=True`. -/
noncomputable def call_greeks (Φ : ℝ → ℝ) (S K r iv tau : ℝ) : Greeks where
  delta := call_delta Φ S K r iv tau
  gamma := call_gamma S K r iv tau
  theta := call_theta Φ S K r iv tau
  vega := vega S K r iv tau
  rho := call_rho Φ S K r iv tau

/-- The greeks dictionary built by `BlackScholes.put` when `greeks=True`. -/
noncomputable def put_greeks (Φ : ℝ → ℝ) (S K r iv tau : ℝ) : Greeks where
  delta := put_delta Φ S K r iv tau
  gamma := put_gamma S K r iv tau
  theta := put_theta Φ S K r iv tau
  vega := vega S K r iv tau
  rho := put_rho Φ S K r iv tau

/-- Result of `scipy.optimize.minimize`: the point reached (`res.x[0]`)
and the convergence flag (`res.success`). -/
structure MinimizeResult where
  x : ℝ
  success : Bool

/-- `BlackScholes.implied_volatility`.  The `option_type` string is
validated before any numeric work; the minimizer run is the external
oracle `res`.  The code then prints a message depending on `res.success`
(when `verbose`) and returns `res.x[0]` unconditionally. -/
def implied_volatility (option_price S K r tau : ℝ)
    (option_type : String) (res : MinimizeResult) : Except String ℝ :=
  if option_type = "call" then Except.ok res.x
  else if option_type = "put" then Except.ok res.x
  else Except.error "option_type must be 'call' or 'put'"

end BlackScholes

/-!
`options.py`.  Dates are embedded as day numbers (`ℤ`); the Python
`(expiry_date - date).days` becomes integer subtraction.  `RISK_FREE_RATE`
is a process-wide constant defined outside `src/` (the package
`__init__`); per the spec it is an injected constant, so it is passed as
the explicit parameter `r`.  The date-string parsing (`__str_to_date`) is
an external collaborator; callers here supply already-parsed day numbers.
-/

/-- `Options._tau`: `days = (expiry_date - date).days / 365`; raises
`ValueError` when `days < 0`, otherwise returns `days`.  The division is
exact here (`ℚ`), which preserves the sign test of the float division. -/
def tau (expiry_date date : ℤ) : Except String ℚ :=
  let days : ℚ := ((expiry_date - date : ℤ) : ℚ) / 365
  if days < 0 then Except.error "Execrice Date can not be AFTER the strike date"
  else Except.ok days

/-- State of a `Call` object: contract terms plus the private caches
`__price` and `__greeks` (both `None` until `calculate_price` runs). -/
structure CallState where
  strike_price : ℝ
  expiry_date : ℤ
  iv : ℝ
  price_cache : Option ℝ
  greeks_cache : Option Greeks

/-- State of a `Put` object (same shape as `Call`). -/
structure PutState where
  strike_price : ℝ
  expiry_date : ℤ
  iv : ℝ
  price_cache : Option ℝ
  greeks_cache : Option Greeks

namespace Call

/-- `Call.__init__`: caches start out as `None`. -/
def mk0 (strike_price : ℝ) (expiry_date : ℤ) (iv : ℝ) : CallState :=
  ⟨strike_price, expiry_date, iv, none, none⟩

/-- The `Call.greeks` property: raises when the cache is unset
(`if not self.__greeks`; the dict, once set, is non-empty hence truthy). -/
def greeks (c : CallState) : Except String Greeks :=
  match c.greeks_cache with
  | none => Except.error "Greeks not calculated. You must call `calculate_price` first."
  | some g => Except.ok g

/-- `Call.get_price`: raises when `self.__price is None`. -/
def get_price (c : CallState) : Except String ℝ :=
  match c.price_cache with
  | none => Except.error "Price not calculated. You must call `calculate_price` first."
  | some p => Except.ok p

/-- `Call.calculate_price`: computes `tau`, prices with
`BlackScholes.call(..., greeks=True)`, stores both caches and returns the
price.  The updated object state is returned alongside the price. -/
noncomputable def calculate_price (Φ : ℝ → ℝ) (c : CallState)
    (spot_price : ℝ) (date : ℤ) (r : ℝ) : Except String (CallState × ℝ) :=
  match tau c.expiry_date date with
  | Except.error e => Except.error e
  | Except.ok t =>
    let price := BlackScholes.call Φ spot_price c.strike_price r c.iv (t : ℝ)
    let gs := BlackScholes.call_greeks Φ spot_price c.strike_price r c.iv (t : ℝ)
    Except.ok ({ c with price_cache := some price, greeks_cache := some gs }, price)

/-- `Call.intrinsic_value`: `max(spot_price - strike_price, 0)`. -/
noncomputable def intrinsic_value (c : CallState) (spot_price : ℝ) : ℝ :=
  max (spot_price - c.strike_price) 0

/-- `Call.time_value`: raises when the price cache is unset, else
`cached_price - intrinsic_value(spot_price)`. -/
noncomputable def time_value (c : CallState) (spot_price : ℝ) : Except String ℝ :=
  match c.price_cache with
  | none => Except.error "Price not calculated. You must call `calculate_price` first."
  | some p => Except.ok (p - intrinsic_value c spot_price)

end Call

namespace Put

/-- `Put.__init__`: caches start out as `None`. -/
def mk0 (strike_price : ℝ) (expiry_date : ℤ) (iv : ℝ) : PutState :=
  ⟨strike_price, expiry_date, iv, none, none⟩

/-- The `Put.greeks` property. -/
def greeks (p : PutState) : Except String Greeks :=
  match p.greeks_cache with
  | none => Except.error "Greeks not calculated. You must call `calculate_price` first."
  | some g => Except.ok g

/-- `Put.get_price`. -/
def get_price (p : PutState) : Except String ℝ :=
  match p.price_cache with
  | none => Except.error "Price not calculated. You must call `calculate_price` first."
  | some v => Except.ok v

/-- `Put.calculate_price`: as for `Call`, using `BlackScholes.put`. -/
noncomputable def calculate_price (Φ : ℝ → ℝ) (p : PutState)
    (spot_price : ℝ) (date : ℤ) (r : ℝ) : Except String (PutState × ℝ) :=
  match tau p.expiry_date date with
  | Except.error e => Except.error e
  | Except.ok t =>
    let price := BlackScholes.put Φ spot_price p.strike_price r p.iv (t : ℝ)
    let gs := BlackScholes.put_greeks Φ spot_price p.strike_price r p.iv (t : ℝ)
    Except.ok ({ p with price_cache := some price, greeks_cache := some gs }, price)

/-- `Put.intrinsic_value`: `max(strike_price - spot_price, 0)`. -/
noncomputable def intrinsic_value (p : PutState) (spot_price : ℝ) : ℝ :=
  max (p.strike_price - spot_price) 0

/-- `Put.time_value`. -/
noncomputable def time_value (p : PutState) (spot_price : ℝ) : Except String ℝ :=
  match p.price_cache with
  | none => Except.error "Price not calculated. You must call calculate_price first."
  | some v => Except.ok (v - intrinsic_value p spot_price)

end Put

/-!
`chart.py`.  `POINTS` and `LOT_SIZE` are the module constants; `TODAY`
(module-level `datetime.date.today()`) is passed as the day-number
parameter `today`.  `np.round(x, 0)` rounds half to even, and
`np.linspace` with its default `endpoint=True` places `num` evenly spaced
points including both ends.  The plotly figure built at the end of
`payoff_chart` is external rendering; the embedding exposes the computed
grid and both PnL series instead.
-/

def POINTS : ℕ := 200

def LOT_SIZE : ℕ := 50

/-- `np.linspace(start, stop, num)` (with the default `endpoint=True`):
the point at index `i` is `start + (stop - start) * i / (num - 1)`. -/
noncomputable def linspace (start stop : ℝ) (num : ℕ) : List ℝ :=
  (List.range num).map fun i : ℕ => start + (stop - start) * (i : ℝ) / ((num : ℝ) - 1)

/-- `np.round(x, 0)`: round to the nearest integer, ties to even. -/
noncomputable def round_half_even (x : ℝ) : ℤ :=
  if x - ⌊x⌋ < 1 / 2 then ⌊x⌋
  else if 1 / 2 < x - ⌊x⌋ then ⌊x⌋ + 1
  else if Even ⌊x⌋ then ⌊x⌋ else ⌊x⌋ + 1

/-- Python `str.lower()`: lower-case every character. -/
def str_lower (s : String) : String :=
  ⟨s.data.map Char.toLower⟩

/-- `Position.__resolve_position_type`: returns `-1` for "short"/"s" and
`1` for "long"/"l" (after lower-casing); any other string falls off the
end of the `if`/`elif` chain, so Python returns `None` — there is no
`else` branch raising an error. -/
def resolve_position_type (position_type : String) : Option ℤ :=
  if str_lower position_type = "short" ∨ str_lower position_type = "s" then some (-1)
  else if str_lower position_type = "long" ∨ str_lower position_type = "l" then some 1
  else none

/-- A `Position`: an option (a `Call` or a `Put`) plus `self._type`, which
is whatever `__resolve_position_type` produced (possibly `None`). -/
structure Position where
  option : CallState ⊕ PutState
  ptype : Option ℤ

/-- `Position.__init__` (the option-instance check always passes here
since the field is typed). -/
def Position.mk0 (option : CallState ⊕ PutState) (position_type : String) : Position :=
  ⟨option, resolve_position_type position_type⟩

/-- Expiry date of the option held by a position. -/
def Position.expiry (p : Position) : ℤ :=
  match p.option with
  | Sum.inl c => c.expiry_date
  | Sum.inr q => q.expiry_date

/-- `PayoffChart.__correct_price`: `price * position._type`.  When
`_type` is `None` the Python multiplication raises a `TypeError`. -/
def correct_price (price : ℝ) (position : Position) : Except String ℝ :=
  match position.ptype with
  | none => Except.error "TypeError: unsupported operand type(s) for *: 'float' and 'NoneType'"
  | some t => Except.ok (price * t)

/-- `PayoffChart.__calc_premium`: prices the position's option at the
given spot and date, then applies the direction sign.  The source also
overwrites the option's caches; those writes never feed back into later
premium computations (`calculate_price` does not read them), so only the
returned price is kept here. -/
noncomputable def calc_premium (Φ : ℝ → ℝ) (r : ℝ) (spot_price : ℝ)
    (position : Position) (date : ℤ) : Except String ℝ :=
  match position.option with
  | Sum.inl c =>
    match Call.calculate_price Φ c spot_price date r with
    | Except.error e => Except.error e
    | Except.ok res => correct_price res.2 position
  | Sum.inr q =>
    match Put.calculate_price Φ q spot_price date r with
    | Except.error e => Except.error e
    | Except.ok res => correct_price res.2 position

/-- `PayoffChart.total_premium`: `t_p = 0`, then adds each position's
premium in order. -/
noncomputable def total_premium (Φ : ℝ → ℝ) (r : ℝ) (positions : List Position)
    (spot_price : ℝ) (date : ℤ) : Except String ℝ :=
  positions.foldlM (fun t_p pos => (calc_premium Φ r spot_price pos date).map (t_p + ·)) 0

/-- `PayoffChart.__min_expiry`: `min` over the positions' expiries;
`min([])` on an empty portfolio raises. -/
def min_expiry (positions : List Position) : Except String ℤ :=
  match (positions.map Position.expiry).min? with
  | none => Except.error "min() arg is an empty sequence"
  | some m => Except.ok m

/-- State of a `PayoffChart`: its position list and `self.__spot_price`. -/
structure PayoffChartState where
  positions : List Position
  spot_price : ℝ

/-- `PayoffChart.set_spot_price`: raises when `spot_price < 0`, stores
the value otherwise. -/
noncomputable def set_spot_price (s : PayoffChartState) (spot_price : ℝ) :
    Except String PayoffChartState :=
  if spot_price < 0 then Except.error "Spot price can not be less than zero."
  else Except.ok { s with spot_price := spot_price }

/-- `PayoffChart.__init__`: resolves the position list (type checks that
always pass here) and calls `set_spot_price`. -/
noncomputable def PayoffChart.init (positions : List Position) (spot_price : ℝ) :
    Except String PayoffChartState :=
  set_spot_price ⟨positions, spot_price⟩ spot_price

/-- `PayoffChart.add_positions`: extends the position list. -/
def add_positions (s : PayoffChartState) (positions : List Position) : PayoffChartState :=
  { s with positions := s.positions ++ positions }

/-- `PayoffChart.payoff_chart`.  `if new_spot_price:` is Python
truthiness, so `None` and `0` both skip the update.  Returns the state
after the optional spot update together with the price grid `Ss`, the
PnL series at the valuation date, and the PnL series at the nearest
expiry. -/
noncomputable def payoff_chart (Φ : ℝ → ℝ) (r : ℝ) (s : PayoffChartState)
    (date : Option ℤ) (rng : ℝ) (new_spot_price : Option ℝ) (today : ℤ) :
    Except String (PayoffChartState × List ℝ × List ℝ × List ℝ) :=
  Except.bind
    (match new_spot_price with
     | none => Except.ok s
     | some v => if v = 0 then Except.ok s else set_spot_price s v) fun s =>
  Except.bind
    (match date with
     | none => min_expiry s.positions
     | some d => Except.ok d) fun d =>
  Except.bind (min_expiry s.positions) fun me =>
  let Ss := linspace (s.spot_price - rng * s.spot_price)
    (s.spot_price + rng * s.spot_price) POINTS
  Except.bind (total_premium Φ r s.positions s.spot_price today) fun premium_paid =>
  Except.bind (Ss.mapM fun x => total_premium Φ r s.positions x d)
    fun premium_recieved_at_T =>
  let pnl := premium_recieved_at_T.map
    (fun p => (round_half_even (p - premium_paid) : ℝ) * LOT_SIZE)
  Except.bind (Ss.mapM fun x => total_premium Φ r s.positions x me)
    fun premium_at_expiry =>
  let pnl_at_expiry := premium_at_expiry.map
    (fun p => (round_half_even (p - premium_paid) : ℝ) * LOT_SIZE)
  Except.ok (s, Ss, pnl, pnl_at_expiry)

/-- States of a `PayoffChart` reachable through its public interface. -/
inductive Reachable : PayoffChartState → Prop
  | init (positions : List Position) (spot_price : ℝ) (s : PayoffChartState) :
      PayoffChart.init positions spot_price = Except.ok s → Reachable s
  | set (s s' : PayoffChartState) (v : ℝ) :
      Reachable s → set_spot_price s v = Except.ok s' → Reachable s'
  | add (s : PayoffChartState) (positions : List Position) :
      Reachable s → Reachable (add_positions s positions)
  | chart (s s' : PayoffChartState) (Φ : ℝ → ℝ) (r : ℝ) (date : Option ℤ)
      (rng : ℝ) (nsp : Option ℝ) (today : ℤ) (out : List ℝ × List ℝ × List ℝ) :
      Reachable s → payoff_chart Φ r s date rng nsp today = Except.ok (s', out) →
      Reachable s'

/-!
Spec-side formulas (for the refinement claim about the pricing formulas):
these follow the spec's words, to be compared with the source embedding.
-/

/-- Spec formula for d1:
`[ln(S/K) + (r + σ²/2)·τ] / (σ·√τ + 1e-10)`. -/
noncomputable def d1_spec (S K r iv tau : ℝ) : ℝ :=
  (Real.log (S / K) + (r + iv ^ 2 / 2) * tau) / (iv * Real.sqrt tau + 1 / 10 ^ 10)

/-- Spec formula for the call price: `S·Φ(d1) − K·e^(−rτ)·Φ(d2)` with
`d2 = d1 − σ·√τ`. -/
noncomputable def call_spec (Φ : ℝ → ℝ) (S K r iv tau : ℝ) : ℝ :=
  S * Φ (d1_spec S K r iv tau)
    - K * Real.exp (-r * tau) * Φ (d1_spec S K r iv tau - iv * Real.sqrt tau)

/-- Spec formula for the put price: `K·e^(−rτ)·Φ(−d2) − S·Φ(−d1)`. -/
noncomputable def put_spec (Φ : ℝ → ℝ) (S K r iv tau : ℝ) : ℝ :=
  K * Real.exp (-r * tau) * Φ (-(d1_spec S K r iv tau - iv * Real.sqrt tau))
    - S * Φ (-(d1_spec S K r iv tau))

/-- The source's `__d1` (reciprocal-multiplication form) equals the
spec's division form. -/
lemma d1_eq_d1_spec (S K r iv tau : ℝ) :
    BlackScholes.d1 S K r iv tau = d1_spec S K r iv tau := by
  unfold BlackScholes.d1 d1_spec eps
  ring

/-- C4: for every input `(S, K, r, σ, τ)`, `BlackScholes.call` returns
`S·Φ(d1) − K·e^(−rτ)·Φ(d2)` and `BlackScholes.put` returns
`K·e^(−rτ)·Φ(−d2) − S·Φ(−d1)`, where
`d1 = [ln(S/K) + (r + σ²/2)·τ] / (σ·√τ + 1e-10)` (additive `1e-10` in the
denominator) and `d2 = d1 − σ·√τ`. -/
theorem C4_pricing_formulas (Φ : ℝ → ℝ) (S K r iv tau : ℝ) :
    BlackScholes.call Φ S K r iv tau = call_spec Φ S K r iv tau ∧
    BlackScholes.put Φ S K r iv tau = put_spec Φ S K r iv tau ∧
    BlackScholes.d1 S K r iv tau = d1_spec S K r iv tau ∧
    BlackScholes.d2 S K r iv tau = BlackScholes.d1 S K r iv tau - iv * Real.sqrt tau := by
  refine ⟨?_, ?_, d1_eq_d1_spec S K r iv tau, rfl⟩ <;>
    simp only [BlackScholes.call, BlackScholes.put, BlackScholes.d2,
      call_spec, put_spec, d1_eq_d1_spec]

/-- C7: the gamma of a call equals the gamma of a put, both given by
`φ(d1) / (S·σ·√τ + 1e-10)`, and the vega entries of the call and put
greeks agree, both given by `S·√τ·φ(d1)`: the call-side and put-side
implementations are extensionally equal. -/
theorem C7_gamma_vega_shared (Φ : ℝ → ℝ) (S K r iv tau : ℝ) :
    BlackScholes.call_gamma S K r iv tau = BlackScholes.put_gamma S K r iv tau ∧
    BlackScholes.call_gamma S K r iv tau =
      normPdf (BlackScholes.d1 S K r iv tau) / (S * iv * Real.sqrt tau + 1 / 10 ^ 10) ∧
    (BlackScholes.call_greeks Φ S K r iv tau).gamma =
      (BlackScholes.put_greeks Φ S K r iv tau).gamma ∧
    (BlackScholes.call_greeks Φ S K r iv tau).vega =
      (BlackScholes.put_greeks Φ S K r iv tau).vega ∧
    (BlackScholes.call_greeks Φ S K r iv tau).vega =
      S * Real.sqrt tau * normPdf (BlackScholes.d1 S K r iv tau) := by
  exact ⟨rfl, rfl, rfl, rfl, rfl⟩

/-- C1 counterexample: `implied_volatility` does not return any
convergence indicator to the caller — at a concrete input its returned
value is identical whether the minimizer converged (`success = true`) or
not (`success = false`); the success flag is only printed, never
returned. -/
theorem C1_counterexample_no_success_flag :
    BlackScholes.implied_volatility 5 100 100 (5 / 100) 1 "call" ⟨3 / 10, true⟩ =
      BlackScholes.implied_volatility 5 100 100 (5 / 100) 1 "call" ⟨3 / 10, false⟩ := by
  rfl

/-- C1 (amended): for every input on which the minimization fails to
converge (`res.success = false`, included in the quantification over
`res`), `implied_volatility` still returns the minimizer's best estimate
`res.x[0]` and never raises; the convergence status is only printed when
verbose, not returned to the caller. -/
theorem C1_amended_returns_best_estimate (option_price S K r tau : ℝ)
    (res : BlackScholes.MinimizeResult) :
    BlackScholes.implied_volatility option_price S K r tau "call" res =
      Except.ok res.x ∧
    BlackScholes.implied_volatility option_price S K r tau "put" res =
      Except.ok res.x := by
  exact ⟨rfl, rfl⟩

/-- C2: `implied_volatility` does raise an invalid-argument error on an
unrecognized option kind, independently of every numeric argument (no
numeric work); but `Position.__resolve_position_type` does NOT raise on an
unrecognized direction string — it falls off the `if`/`elif` chain and
yields `None`, so the `Position` is constructed with `_type = None`
(the claim's second half fails on the code). -/
theorem C2_code_bug_position_type_not_validated :
    BlackScholes.implied_volatility 1 2 3 4 5 "swap" ⟨0, true⟩ =
      Except.error "option_type must be 'call' or 'put'" ∧
    resolve_position_type "diagonal" = none ∧
    Position.mk0 (Sum.inl (Call.mk0 100 0 (1 / 5))) "diagonal" =
      ⟨Sum.inl (Call.mk0 100 0 (1 / 5)), none⟩ := by
  have h : resolve_position_type "diagonal" = none := by decide
  exact ⟨rfl, h, by simp [Position.mk0, h]⟩

/-- C3: for every valid input with `S > 0`, `K > 0`, `σ ≥ 0`, `τ > 0`,
`call − put = S − K·e^(−rτ)` within `1e-6` (the parity is in fact exact
here: call and put share the same `d1`, `d2`, so the `1e-10` stabiliser
cancels).  `Φ` is `norm.cdf`; the only property used is the reflection
identity `Φ(−x) = 1 − Φ(x)` of the standard normal CDF. -/
theorem C3_put_call_parity (Φ : ℝ → ℝ) (S K r iv tau : ℝ)
    (hΦ : ∀ x, Φ (-x) = 1 - Φ x)
    (hS : 0 < S) (hK : 0 < K) (hiv : 0 ≤ iv) (htau : 0 < tau) :
    |BlackScholes.call Φ S K r iv tau - BlackScholes.put Φ S K r iv tau
      - (S - K * Real.exp (-r * tau))| ≤ 1 / 10 ^ 6 := by
  have h0 : BlackScholes.call Φ S K r iv tau - BlackScholes.put Φ S K r iv tau
      - (S - K * Real.exp (-r * tau)) = 0 := by
    simp only [BlackScholes.call, BlackScholes.put, hΦ]
    ring
  rw [h0, abs_zero]
  norm_num

/-- C3 witness: parity at `Φ = const 1/2`, `S = K = 1`, `r = 0`,
`σ = τ = 1`. -/
theorem C3_put_call_parity_witness :
    |BlackScholes.call (fun _ => 1 / 2) 1 1 0 1 1
      - BlackScholes.put (fun _ => 1 / 2) 1 1 0 1 1
      - (1 - 1 * Real.exp (-0 * 1))| ≤ 1 / 10 ^ 6 :=
  C3_put_call_parity (fun _ => 1 / 2) 1 1 0 1 1 (fun x => by norm_num)
    one_pos one_pos zero_le_one one_pos

/-- At `τ = 0` the call price collapses to `(S − K)·Φ(d1)`. -/
lemma call_at_zero_tau (Φ : ℝ → ℝ) (S K r iv : ℝ) (hΦ0 : ∀ x, 0 ≤ Φ x)
    (hKS : K ≤ S) : 0 ≤ BlackScholes.call Φ S K r iv 0 := by
  simp only [BlackScholes.call, BlackScholes.d2, Real.sqrt_zero, mul_zero,
    sub_zero, Real.exp_zero, one_mul, mul_one]
  nlinarith [hΦ0 (BlackScholes.d1 S K r iv 0)]

/-- At `τ = 0` the put price collapses to `(K − S)·Φ(−d1)`. -/
lemma put_at_zero_tau (Φ : ℝ → ℝ) (S K r iv : ℝ) (hΦ0 : ∀ x, 0 ≤ Φ x)
    (hSK : S ≤ K) : 0 ≤ BlackScholes.put Φ S K r iv 0 := by
  simp only [BlackScholes.put, BlackScholes.d2, Real.sqrt_zero, mul_zero,
    sub_zero, Real.exp_zero, one_mul, mul_one]
  nlinarith [hΦ0 (-BlackScholes.d1 S K r iv 0)]

/-- C5: for every expiry day `e` and every valuation day `d` strictly
after it, `_tau` (hence `calculate_price`) fails with the invalid-state
error and no negative τ is returned; at `d = e` the computation succeeds
with `τ = 0`, and on the spec's example contract (strike 111, call priced
at spot 115, put priced at spot 110) the resulting price is ≥ 0.  The only
property of `Φ = norm.cdf` used is its non-negativity. -/
theorem C5_temporal_guard (Φ : ℝ → ℝ) (r iv : ℝ) (e d : ℤ)
    (hd : e < d) (hΦ0 : ∀ x, 0 ≤ Φ x) :
    tau e d = Except.error "Execrice Date can not be AFTER the strike date" ∧
    tau e e = Except.ok 0 ∧
    Call.calculate_price Φ (Call.mk0 111 e iv) 115 d r =
      Except.error "Execrice Date can not be AFTER the strike date" ∧
    Put.calculate_price Φ (Put.mk0 111 e iv) 110 d r =
      Except.error "Execrice Date can not be AFTER the strike date" ∧
    (Call.calculate_price Φ (Call.mk0 111 e iv) 115 e r).map Prod.snd =
      Except.ok (BlackScholes.call Φ 115 111 r iv 0) ∧
    0 ≤ BlackScholes.call Φ 115 111 r iv 0 ∧
    (Put.calculate_price Φ (Put.mk0 111 e iv) 110 e r).map Prod.snd =
      Except.ok (BlackScholes.put Φ 110 111 r iv 0) ∧
    0 ≤ BlackScholes.put Φ 110 111 r iv 0 := by
  have herr : tau e d = Except.error "Execrice Date can not be AFTER the strike date" := by
    unfold tau
    rw [if_pos]
    exact div_neg_of_neg_of_pos (by exact_mod_cast sub_neg.mpr hd) (by norm_num)
  have hok : tau e e = Except.ok 0 := by
    unfold tau
    rw [if_neg] <;> simp
  refine ⟨herr, hok, ?_, ?_, ?_, ?_, ?_, ?_⟩
  · simp [Call.calculate_price, Call.mk0, herr]
  · simp [Put.calculate_price, Put.mk0, herr]
  · simp [Call.calculate_price, Call.mk0, hok, Except.map]
  · exact call_at_zero_tau Φ 115 111 r iv hΦ0 (by norm_num)
  · simp [Put.calculate_price, Put.mk0, hok, Except.map]
  · exact put_at_zero_tau Φ 110 111 r iv hΦ0 (by norm_num)

/-- C5 witness: the guard at expiry day 0, valuation day 7, with the
constant-1/2 CDF. -/
theorem C5_temporal_guard_witness :
    tau 0 7 = Except.error "Execrice Date can not be AFTER the strike date" ∧
    tau 0 0 = Except.ok 0 ∧
    Call.calculate_price (fun _ => 1 / 2) (Call.mk0 111 0 (1 / 5)) 115 7 0 =
      Except.error "Execrice Date can not be AFTER the strike date" ∧
    Put.calculate_price (fun _ => 1 / 2) (Put.mk0 111 0 (1 / 5)) 110 7 0 =
      Except.error "Execrice Date can not be AFTER the strike date" ∧
    (Call.calculate_price (fun _ => 1 / 2) (Call.mk0 111 0 (1 / 5)) 115 0 0).map Prod.snd =
      Except.ok (BlackScholes.call (fun _ => 1 / 2) 115 111 0 (1 / 5) 0) ∧
    0 ≤ BlackScholes.call (fun _ => 1 / 2) 115 111 0 (1 / 5) 0 ∧
    (Put.calculate_price (fun _ => 1 / 2) (Put.mk0 111 0 (1 / 5)) 110 0 0).map Prod.snd =
      Except.ok (BlackScholes.put (fun _ => 1 / 2) 110 111 0 (1 / 5) 0) ∧
    0 ≤ BlackScholes.put (fun _ => 1 / 2) 110 111 0 (1 / 5) 0 :=
  C5_temporal_guard (fun _ => 1 / 2) 0 (1 / 5) 0 7 (by norm_num) (fun x => by norm_num)

/-- A successful `Call.calculate_price` leaves both caches populated,
the price cache holding exactly the returned price. -/
lemma calculate_price_ok_call {Φ : ℝ → ℝ} {c : CallState} {spot r : ℝ} {d : ℤ}
    {st : CallState} {p : ℝ}
    (h : Call.calculate_price Φ c spot d r = Except.ok (st, p)) :
    st.price_cache = some p ∧ st.greeks_cache.isSome = true := by
  unfold Call.calculate_price at h
  cases ht : tau c.expiry_date d with
  | error msg => rw [ht] at h; cases h
  | ok t =>
    rw [ht] at h
    simp only [Except.ok.injEq, Prod.mk.injEq] at h
    obtain ⟨h1, h2⟩ := h
    subst h1; subst h2
    simp

/-- A successful `Put.calculate_price` leaves both caches populated. -/
lemma calculate_price_ok_put {Φ : ℝ → ℝ} {q : PutState} {spot r : ℝ} {d : ℤ}
    {st : PutState} {p : ℝ}
    (h : Put.calculate_price Φ q spot d r = Except.ok (st, p)) :
    st.price_cache = some p ∧ st.greeks_cache.isSome = true := by
  unfold Put.calculate_price at h
  cases ht : tau q.expiry_date d with
  | error msg => rw [ht] at h; cases h
  | ok t =>
    rw [ht] at h
    simp only [Except.ok.injEq, Prod.mk.injEq] at h
    obtain ⟨h1, h2⟩ := h
    subst h1; subst h2
    simp

/-- C6: on a freshly constructed `Call` or `Put` the `greeks` accessor,
`get_price` and `time_value` all fail with a state error; after one
successful `calculate_price` call, `greeks` and `get_price` succeed and
`get_price()` returns exactly the value `calculate_price` returned. -/
theorem C6_precomputation_guard (Φ : ℝ → ℝ) (k iv spot r : ℝ) (e d : ℤ)
    (c : CallState) (st : CallState) (p : ℝ)
    (hc : Call.calculate_price Φ c spot d r = Except.ok (st, p))
    (q : PutState) (st2 : PutState) (p2 : ℝ)
    (hq : Put.calculate_price Φ q spot d r = Except.ok (st2, p2)) :
    Call.greeks (Call.mk0 k e iv) =
      Except.error "Greeks not calculated. You must call `calculate_price` first." ∧
    Call.get_price (Call.mk0 k e iv) =
      Except.error "Price not calculated. You must call `calculate_price` first." ∧
    Call.time_value (Call.mk0 k e iv) spot =
      Except.error "Price not calculated. You must call `calculate_price` first." ∧
    Put.greeks (Put.mk0 k e iv) =
      Except.error "Greeks not calculated. You must call `calculate_price` first." ∧
    Put.get_price (Put.mk0 k e iv) =
      Except.error "Price not calculated. You must call `calculate_price` first." ∧
    Put.time_value (Put.mk0 k e iv) spot =
      Except.error "Price not calculated. You must call calculate_price first." ∧
    Call.get_price st = Except.ok p ∧ (Call.greeks st).isOk = true ∧
    Put.get_price st2 = Except.ok p2 ∧ (Put.greeks st2).isOk = true := by
  obtain ⟨hc1, hc2⟩ := calculate_price_ok_call hc
  obtain ⟨hq1, hq2⟩ := calculate_price_ok_put hq
  refine ⟨rfl, rfl, rfl, rfl, rfl, rfl, ?_, ?_, ?_, ?_⟩
  · simp [Call.get_price, hc1]
  · rcases hg : st.greeks_cache with _ | g
    · rw [hg] at hc2; cases hc2
    · simp [Call.greeks, hg, Except.isOk, Except.toBool]
  · simp [Put.get_price, hq1]
  · rcases hg : st2.greeks_cache with _ | g
    · rw [hg] at hq2; cases hq2
    · simp [Put.greeks, hg, Except.isOk, Except.toBool]

/-- C6 witness: the guard on the test contract (strike 111, iv 0.23),
priced at spot 115 on the expiry day, with the constant-1/2 CDF. -/
theorem C6_precomputation_guard_witness :
    Call.greeks (Call.mk0 111 0 (23 / 100)) =
      Except.error "Greeks not calculated. You must call `calculate_price` first." ∧
    Call.get_price (Call.mk0 111 0 (23 / 100)) =
      Except.error "Price not calculated. You must call `calculate_price` first." ∧
    Call.time_value (Call.mk0 111 0 (23 / 100)) 115 =
      Except.error "Price not calculated. You must call `calculate_price` first." ∧
    Put.greeks (Put.mk0 111 0 (23 / 100)) =
      Except.error "Greeks not calculated. You must call `calculate_price` first." ∧
    Put.get_price (Put.mk0 111 0 (23 / 100)) =
      Except.error "Price not calculated. You must call `calculate_price` first." ∧
    Put.time_value (Put.mk0 111 0 (23 / 100)) 115 =
      Except.error "Price not calculated. You must call calculate_price first." ∧
    Call.get_price
        { strike_price := 111, expiry_date := 0, iv := 23 / 100,
          price_cache := some (BlackScholes.call (fun _ => 1 / 2) 115 111 0 (23 / 100) ((0 : ℚ) : ℝ)),
          greeks_cache := some (BlackScholes.call_greeks (fun _ => 1 / 2) 115 111 0 (23 / 100) ((0 : ℚ) : ℝ)) } =
      Except.ok (BlackScholes.call (fun _ => 1 / 2) 115 111 0 (23 / 100) ((0 : ℚ) : ℝ)) ∧
    (Call.greeks
        { strike_price := 111, expiry_date := 0, iv := 23 / 100,
          price_cache := some (BlackScholes.call (fun _ => 1 / 2) 115 111 0 (23 / 100) ((0 : ℚ) : ℝ)),
          greeks_cache := some (BlackScholes.call_greeks (fun _ => 1 / 2) 115 111 0 (23 / 100) ((0 : ℚ) : ℝ)) }).isOk = true ∧
    Put.get_price
        { strike_price := 111, expiry_date := 0, iv := 23 / 100,
          price_cache := some (BlackScholes.put (fun _ => 1 / 2) 115 111 0 (23 / 100) ((0 : ℚ) : ℝ)),
          greeks_cache := some (BlackScholes.put_greeks (fun _ => 1 / 2) 115 111 0 (23 / 100) ((0 : ℚ) : ℝ)) } =
      Except.ok (BlackScholes.put (fun _ => 1 / 2) 115 111 0 (23 / 100) ((0 : ℚ) : ℝ)) ∧
    (Put.greeks
        { strike_price := 111, expiry_date := 0, iv := 23 / 100,
          price_cache := some (BlackScholes.put (fun _ => 1 / 2) 115 111 0 (23 / 100) ((0 : ℚ) : ℝ)),
          greeks_cache := some (BlackScholes.put_greeks (fun _ => 1 / 2) 115 111 0 (23 / 100) ((0 : ℚ) : ℝ)) }).isOk = true :=
  C6_precomputation_guard (fun _ => 1 / 2) 111 (23 / 100) 115 0 0 0
    (Call.mk0 111 0 (23 / 100)) _ _ (by simp [Call.calculate_price, Call.mk0, tau])
    (Put.mk0 111 0 (23 / 100)) _ _ (by simp [Put.calculate_price, Put.mk0, tau])

/-- Destructuring a successful `Except` bind. -/
lemma bind_ok {α β : Type} {x : Except String α} {f : α → Except String β} {b : β}
    (h : Except.bind x f = Except.ok b) : ∃ a, x = Except.ok a ∧ f a = Except.ok b := by
  cases x with
  | error e => simp [Except.bind] at h
  | ok a =>
    refine ⟨a, rfl, ?_⟩
    simpa [Except.bind] using h

/-- A successful `set_spot_price` stored exactly the given value, and the
value was non-negative. -/
lemma set_spot_price_ok {s s' : PayoffChartState} {v : ℝ}
    (h : set_spot_price s v = Except.ok s') :
    s' = { s with spot_price := v } ∧ 0 ≤ v := by
  unfold set_spot_price at h
  split at h
  · cases h
  · next hv =>
    injection h with h
    exact ⟨h.symm, not_lt.mp hv⟩

/-- The state returned by a successful `payoff_chart` is either the input
state (spot update skipped) or the result of a `set_spot_price`. -/
lemma payoff_chart_ok_state {Φ : ℝ → ℝ} {r : ℝ} {s : PayoffChartState}
    {date : Option ℤ} {rng : ℝ} {nsp : Option ℝ} {today : ℤ}
    {s' : PayoffChartState} {out : List ℝ × List ℝ × List ℝ}
    (h : payoff_chart Φ r s date rng nsp today = Except.ok (s', out)) :
    s' = s ∨ ∃ v, set_spot_price s v = Except.ok s' := by
  unfold payoff_chart at h
  obtain ⟨s₀, h1, h⟩ := bind_ok h
  obtain ⟨d₀, h2, h⟩ := bind_ok h
  obtain ⟨me₀, h3, h⟩ := bind_ok h
  obtain ⟨pp₀, h4, h⟩ := bind_ok h
  obtain ⟨ts₀, h5, h⟩ := bind_ok h
  obtain ⟨te₀, h6, h⟩ := bind_ok h
  simp only [pure, Except.pure, Except.ok.injEq, Prod.mk.injEq] at h
  obtain ⟨hs, -⟩ := h
  subst hs
  cases nsp with
  | none =>
    injection h1 with h1
    exact Or.inl h1.symm
  | some v =>
    dsimp only at h1
    rcases eq_or_ne v 0 with rfl | hv
    · simp only [if_pos, Except.ok.injEq] at h1
      exact Or.inl h1.symm
    · rw [if_neg hv] at h1
      exact Or.inr ⟨v, h1⟩

/-- C9: `set_spot_price` (used by the constructor and by `payoff_chart`)
rejects every negative argument and stores the value otherwise, so every
reachable `PayoffChart` state has a non-negative stored spot price. -/
theorem C9_spot_price_invariant (s : PayoffChartState) (vneg vpos : ℝ)
    (s' : PayoffChartState)
    (hneg : vneg < 0) (hpos : 0 ≤ vpos) (hr : Reachable s') :
    set_spot_price s vneg = Except.error "Spot price can not be less than zero." ∧
    set_spot_price s vpos = Except.ok { s with spot_price := vpos } ∧
    0 ≤ s'.spot_price := by
  refine ⟨?_, ?_, ?_⟩
  · unfold set_spot_price
    rw [if_pos hneg]
  · unfold set_spot_price
    rw [if_neg (not_lt.mpr hpos)]
  · induction hr with
    | init ps v0 s0 h =>
      obtain ⟨he, hv⟩ := set_spot_price_ok h
      simpa [he] using hv
    | set s1 s2 w hr1 hset ih =>
      obtain ⟨he, hv⟩ := set_spot_price_ok hset
      simpa [he] using hv
    | add s1 ps hr1 ih => simpa [add_positions] using ih
    | chart s1 s2 Φ r date rng nsp today out hr1 hpc ih =>
      rcases payoff_chart_ok_state hpc with rfl | ⟨w, hset⟩
      · exact ih
      · obtain ⟨he, hv⟩ := set_spot_price_ok hset
        simpa [he] using hv

/-- C9 witness: on the portfolio state with spot 5, `set_spot_price`
rejects −3 and stores 7, and the reachable state built by the constructor
with spot 100 has non-negative spot. -/
theorem C9_spot_price_invariant_witness :
    set_spot_price ⟨[], 5⟩ (-3) = Except.error "Spot price can not be less than zero." ∧
    set_spot_price ⟨[], 5⟩ 7 = Except.ok { positions := [], spot_price := 7 } ∧
    0 ≤ (PayoffChartState.mk [] 100).spot_price :=
  C9_spot_price_invariant ⟨[], 5⟩ (-3) 7 ⟨[], 100⟩ (by norm_num) (by norm_num)
    (Reachable.init [] 100 ⟨[], 100⟩ (by norm_num [PayoffChart.init, set_spot_price]))

/-- C10: calling `payoff_chart` with `new_spot_price = 0` skips the spot
update entirely (Python truthiness treats `0` as absent): the result is
identical to calling it with `new_spot_price = None`, and in particular
the stored reference spot is unchanged — even though `set_spot_price`
called directly with `0` accepts and stores `0`. -/
theorem C10_zero_new_spot_skipped (Φ : ℝ → ℝ) (r rng : ℝ) (s : PayoffChartState)
    (date : Option ℤ) (today : ℤ) :
    payoff_chart Φ r s date rng (some 0) today =
      payoff_chart Φ r s date rng none today ∧
    set_spot_price s 0 = Except.ok { s with spot_price := 0 } := by
  constructor
  · unfold payoff_chart
    norm_num
  · unfold set_spot_price
    rw [if_neg (lt_irrefl 0)]

/-- `mapM` over `Except` succeeds pointwise. -/
lemma mapM_ok {α β : Type} (f : α → Except String β) (g : α → β) (l : List α)
    (h : ∀ x ∈ l, f x = Except.ok (g x)) : l.mapM f = Except.ok (l.map g) := by
  induction l with
  | nil => rfl
  | cons a t ih =>
    rw [List.mapM_cons, h a (List.mem_cons_self a t),
      ih (fun x hx => h x (List.mem_cons_of_mem a hx))]
    rfl

/-- C8: for a portfolio whose premium computations succeed —
`premium_paid = pp` at the reference spot today, `f x` the total premium
at grid point `x` on the valuation date, `g x` the total premium at the
nearest expiry `me` — `payoff_chart` builds a grid of exactly
`POINTS = 200` linearly spaced points spanning
`[spot·(1−ρ), spot·(1+ρ)]`, and both PnL series are
`round(total_premium − pp)` (half-to-even, as `np.round`) scaled by the
lot size 50, rounding before scaling. -/
theorem C8_payoff_grid_and_pnl (Φ : ℝ → ℝ) (r spot ρ : ℝ) (ps : List Position)
    (d me : ℤ) (today : ℤ) (pp : ℝ) (f g : ℝ → ℝ)
    (hme : min_expiry ps = Except.ok me)
    (hpp : total_premium Φ r ps spot today = Except.ok pp)
    (hf : ∀ x, total_premium Φ r ps x d = Except.ok (f x))
    (hg : ∀ x, total_premium Φ r ps x me = Except.ok (g x)) :
    POINTS = 200 ∧
    (linspace (spot - ρ * spot) (spot + ρ * spot) POINTS).length = 200 ∧
    linspace (spot - ρ * spot) (spot + ρ * spot) POINTS =
      (List.range 200).map (fun i : ℕ => spot * (1 - ρ) + 2 * ρ * spot * (i : ℝ) / 199) ∧
    payoff_chart Φ r ⟨ps, spot⟩ (some d) ρ none today =
      Except.ok (⟨ps, spot⟩,
        linspace (spot - ρ * spot) (spot + ρ * spot) POINTS,
        (linspace (spot - ρ * spot) (spot + ρ * spot) POINTS).map
          (fun x => (round_half_even (f x - pp) : ℝ) * 50),
        (linspace (spot - ρ * spot) (spot + ρ * spot) POINTS).map
          (fun x => (round_half_even (g x - pp) : ℝ) * 50)) := by
  refine ⟨rfl, by simp only [linspace, POINTS, List.length_map, List.length_range], ?_, ?_⟩
  · unfold linspace POINTS
    refine List.map_congr_left ?_
    intro i _
    norm_num
    ring
  · unfold payoff_chart
    dsimp only [Except.bind]
    rw [hme]
    dsimp only [Except.bind]
    rw [hpp]
    dsimp only [Except.bind]
    rw [mapM_ok _ f _ (fun x _ => hf x)]
    dsimp only [Except.bind]
    rw [mapM_ok _ g _ (fun x _ => hg x)]
    dsimp only [Except.bind]
    simp [List.map_map, LOT_SIZE, Function.comp]

/-- C8 witness: a one-position portfolio (a long call, strike 100,
expiring on day 0, unit volatility), reference spot 100, range 0.1,
valued on day 0 with the constant-1/2 CDF and zero rate. -/
theorem C8_payoff_grid_and_pnl_witness :
    POINTS = 200 ∧
    (linspace (100 - 1 / 10 * 100) (100 + 1 / 10 * 100) POINTS).length = 200 ∧
    linspace (100 - 1 / 10 * 100) (100 + 1 / 10 * 100) POINTS =
      (List.range 200).map
        (fun i : ℕ => 100 * (1 - 1 / 10) + 2 * (1 / 10) * 100 * (i : ℝ) / 199) ∧
    payoff_chart (fun _ => 1 / 2) 0
        ⟨[{ option := Sum.inl (Call.mk0 100 0 1), ptype := some 1 }], 100⟩
        (some 0) (1 / 10) none 0 =
      Except.ok (⟨[{ option := Sum.inl (Call.mk0 100 0 1), ptype := some 1 }], 100⟩,
        linspace (100 - 1 / 10 * 100) (100 + 1 / 10 * 100) POINTS,
        (linspace (100 - 1 / 10 * 100) (100 + 1 / 10 * 100) POINTS).map
          (fun x => (round_half_even
            (BlackScholes.call (fun _ => 1 / 2) x 100 0 1 0
              - BlackScholes.call (fun _ => 1 / 2) 100 100 0 1 0) : ℝ) * 50),
        (linspace (100 - 1 / 10 * 100) (100 + 1 / 10 * 100) POINTS).map
          (fun x => (round_half_even
            (BlackScholes.call (fun _ => 1 / 2) x 100 0 1 0
              - BlackScholes.call (fun _ => 1 / 2) 100 100 0 1 0) : ℝ) * 50)) :=
  C8_payoff_grid_and_pnl (fun _ => 1 / 2) 0 100 (1 / 10)
    [{ option := Sum.inl (Call.mk0 100 0 1), ptype := some 1 }] 0 0 0
    (BlackScholes.call (fun _ => 1 / 2) 100 100 0 1 0)
    (fun x => BlackScholes.call (fun _ => 1 / 2) x 100 0 1 0)
    (fun x => BlackScholes.call (fun _ => 1 / 2) x 100 0 1 0)
    rfl
    (by simp [total_premium, calc_premium, Call.calculate_price, correct_price,
      Call.mk0, tau, Except.map])
    (fun x => by simp [total_premium, calc_premium, Call.calculate_price, correct_price,
      Call.mk0, tau, Except.map])
    (fun x => by simp [total_premium, calc_premium, Call.calculate_price, correct_price,
      Call.mk0, tau, Except.map])

end Optionalyzer
